import Mathlib

/-!
Verification of the `pulse_otel` Python package (singlestore-pulse).

The development shallowly embeds the pure logic of the repository:

* `pulse_otel/util.py`  — environment-variable resolution, collector-endpoint
  formation, and session-id extraction from baggage headers / request bodies;
* `pulse_otel/consts.py` — the constant tables;
* `pulse_otel/main.py`  — the `Pulse` facade initialization state machine and
  the three file exporters (`CustomFileSpanExporter`, `FileLogExporter`,
  `JSONLFileLogExporter`).

Python strings are modelled as `List Char` (`Str`); Python dictionaries whose
shape is fixed by the code are modelled as structures with `Option` fields
(`none` = key/attribute absent); `os.environ` is modelled as an association
list; fallible code returns `Except PyErr`; observable initialization side
effects are recorded as an explicit `Effect` list.
-/

abbrev Str := List Char

/-- Python exceptions that the embedded code can raise. -/
inductive PyErr where
  | valueError (msg : Str)
  | keyError
  | osError
deriving DecidableEq

/-- Truthiness of a Python string: non-empty. -/
def truthyStr (s : Str) : Bool := !s.isEmpty

/-- Truthiness of an optional Python string: present and non-empty
(`None` and `""` are falsy). -/
def truthyOpt (o : Option Str) : Bool :=
  match o with
  | some s => truthyStr s
  | none => false

/-- Python `a or b` on optional strings: `a` when `a` is truthy, else `b`. -/
def pyOr (a b : Option Str) : Option Str := if truthyOpt a then a else b

/-- Characters removed by Python `str.strip()` (the ASCII whitespace set). -/
def pyIsSpace (c : Char) : Bool :=
  c = ' ' || c = '\t' || c = '\n' || c = '\x0d' || c = '\x0b' || c = '\x0c'

/-- Left part of `str.strip()`: drop leading whitespace. -/
def stripL (s : Str) : Str := s.dropWhile pyIsSpace

/-- Right part of `str.strip()`: drop trailing whitespace. -/
def stripR (s : Str) : Str := (stripL s.reverse).reverse

/-- Python `str.strip()`: drop whitespace at both ends. -/
def pyStrip (s : Str) : Str := stripR (stripL s)

/-- Python `str.split(sep)` for a one-character separator: splits at every
occurrence; the result is never empty (`"".split(c) == [""]`). -/
def pySplit (sep : Char) : Str → List Str
  | [] => [[]]
  | c :: cs =>
    if c = sep then [] :: pySplit sep cs
    else
      match pySplit sep cs with
      | [] => [[c]]
      | h :: t => (c :: h) :: t

/-- Python `str.split(sep, 1)` under the guarantee that `sep` occurs in the
string: the text before the first occurrence and the text after it. -/
def splitFirst (sep : Char) : Str → Str × Str
  | [] => ([], [])
  | c :: cs =>
    if c = sep then ([], cs)
    else
      let r := splitFirst sep cs
      (c :: r.1, r.2)

/-- Python `pat in s` for strings: substring test. -/
def isSubstr (pat s : Str) : Bool := s.tails.any (fun t => pat.isPrefixOf t)

/-- Python `str.replace(pat, rep)` for a non-empty pattern: scan left to
right, replacing every non-overlapping occurrence; the replacement text is
not rescanned. -/
def replaceAll (pat rep : Str) : Str → Str
  | [] => []
  | c :: cs =>
    if h : pat ≠ [] ∧ pat.isPrefixOf (c :: cs) then
      rep ++ replaceAll pat rep ((c :: cs).drop pat.length)
    else
      c :: replaceAll pat rep cs
termination_by s => s.length
decreasing_by
  · simp only [List.length_drop, List.length_cons]
    have : pat.length ≠ 0 := fun hz => h.1 (List.eq_nil_of_length_eq_zero hz)
    omega
  · simp

/- ### consts.py -/

/-- Source: `consts.py` `OTEL_COLLECTOR_ENDPOINT`. -/
def OTEL_COLLECTOR_ENDPOINT : Str :=
  "http://otel-collector-{PROJECTID_PLACEHOLDER}.observability.svc.cluster.local:4317".data

/-- Source: `consts.py` `PULSE_INTERNAL_COLLECTOR_ENDPOINT`. -/
def PULSE_INTERNAL_COLLECTOR_ENDPOINT : Str :=
  "otel-collector-pulse-internal-{NOVA_CELL_PLACEHOLDER}.observability.svc.cluster.local:4317".data

/-- Source: `consts.py` `HEADER_INCOMING_SESSION_ID`. -/
def HEADER_INCOMING_SESSION_ID : Str := "singlestore-session-id".data

/-- Source: `consts.py` `SESSION_ID` (the association-property key). -/
def SESSION_ID : Str := "session.id".data

/-- Source: `consts.py` `PROJECT`. -/
def PROJECT : Str := "singlestore.project".data

/-- Source: `consts.py` `DEFAULT_ENV_VARIABLES` (insertion order preserved). -/
def DEFAULT_ENV_VARIABLES : List (Str × Str) :=
  [("SINGLESTOREDB_ORGANIZATION".data, "".data),
   ("SINGLESTOREDB_PROJECT".data, "".data),
   ("HTTP_NOTEBOOKSSERVERID".data, "".data),
   ("HOSTNAME".data, "".data),
   ("SINGLESTOREDB_WORKLOAD_TYPE".data, "NotebookCodeService".data),
   ("SINGLESTOREDB_APP_BASE_PATH".data, "".data),
   ("SINGLESTOREDB_APP_BASE_URL".data, "".data),
   ("SINGLESTOREDB_APP_TYPE".data, "AGENT".data),
   ("SINGLESTOREDB_APP_ID".data, "123456789".data),
   ("SINGLESTOREDB_APP_NAME".data, "MY_APP_NAME".data),
   ("SINGLESTOREDB_IS_AGENT".data, "true".data)]

/-- Source: `consts.py` `ENV_VARIABLES_MAPPING` (insertion order preserved;
`format_env_variables` takes the first entry whose key is a substring). -/
def ENV_VARIABLES_MAPPING : List (Str × Str) :=
  [("SINGLESTOREDB_APP_ID".data, "singlestore.nova.app.id".data),
   ("SINGLESTOREDB_APP_NAME".data, "singlestore.nova.app.name".data),
   ("SINGLESTOREDB_APP_TYPE".data, "singlestore.nova.app.type".data),
   ("SINGLESTOREDB_ORGANIZATION".data, "singlestore.organization".data),
   ("SINGLESTOREDB_PROJECT".data, "singlestore.project".data),
   ("HTTP_NOTEBOOKSSERVERID".data, "singlestore.notebooks.server.id".data),
   ("SINGLESTOREDB_WORKLOAD_TYPE".data, "singlestore.workload.type".data),
   ("SINGLESTOREDB_APP_BASE_PATH".data, "singlestore.nova.app.base.path".data),
   ("SINGLESTOREDB_APP_BASE_URL".data, "singlestore.nova.app.base.url".data),
   ("SINGLESTOREDB_IS_AGENT".data, "singlestore.is.agent".data),
   ("HOSTNAME".data, "singlestore.hostname".data)]

/-- Source: `consts.py` `LOCAL_TRACES_FILE`. -/
def LOCAL_TRACES_FILE : Str := "pulse_traces.json".data

/-- Source: `consts.py` `LOCAL_LOGS_FILE`. -/
def LOCAL_LOGS_FILE : Str := "pulse_logs.txt".data

/- ### util.py: environment resolver -/

/-- `os.getenv(key)` over an association-list model of `os.environ`. -/
def envLookup (env : List (Str × Str)) (k : Str) : Option Str :=
  (env.find? (fun p => p.1 == k)).map (·.2)

/-- Inner rename step of `format_env_variables`: the first mapping entry
whose key occurs as a substring of `key` wins (`if match in key: ... break`),
else the key is kept. -/
def renameKey (key : Str) : Str :=
  match ENV_VARIABLES_MAPPING.find? (fun p => isSubstr p.1 key) with
  | some p => p.2
  | none => key

/-- Source: `util.py` `convert_key` (inside `format_env_variables`):
`key.lower().replace('_', '.')`. -/
def convert_key (k : Str) : Str :=
  (k.map Char.toLower).map (fun c => if c = '_' then '.' else c)

/-- Source: `util.py` `format_env_variables`: rename each key through the
mapping table, then canonicalize it; values are untouched. -/
def format_env_variables (env_variables : List (Str × Str)) : List (Str × Str) :=
  env_variables.map (fun p => (convert_key (renameKey p.1), p.2))

/-- Source: `util.py` `get_environ_vars`: read every variable of
`DEFAULT_ENV_VARIABLES` from the environment with fallback to its default,
then format the result. -/
def get_environ_vars (env : List (Str × Str)) : List (Str × Str) :=
  format_env_variables
    (DEFAULT_ENV_VARIABLES.map (fun p => (p.1, (envLookup env p.1).getD p.2)))

/- ### util.py: collector endpoints -/

/-- Source: `util.py` `form_otel_collector_endpoint`: `ValueError` when the
project id is `None` or `''`, else the template with the placeholder
replaced. -/
def form_otel_collector_endpoint (project_id : Option Str) : Except PyErr Str :=
  match project_id with
  | none =>
    .error (.valueError "[Pulse] SINGLESTOREDB_PROJECT is required but not found int env variables.".data)
  | some pid =>
    if pid = [] then
      .error (.valueError "[Pulse] SINGLESTOREDB_PROJECT is required but not found int env variables.".data)
    else
      .ok (replaceAll "{PROJECTID_PLACEHOLDER}".data pid OTEL_COLLECTOR_ENDPOINT)

/-- Source: `util.py` `get_internal_collector_endpoint`: extract the nova
cell from `HTTP_FORWARDEDHOST` and substitute it into the internal template;
`ValueError` when the variable is missing or its first dot-component is not a
nova-gateway name. -/
def get_internal_collector_endpoint (env : List (Str × Str)) : Except PyErr Str :=
  let hfh := (envLookup env "HTTP_FORWARDEDHOST".data).getD []
  if hfh = [] then
    .error (.valueError "[Pulse] HTTP_FORWARDEDHOST is required for Internal Observability but not found in env variables.".data)
  else
    let host_parts := pySplit '.' hfh
    if host_parts.length > 1 &&
        (host_parts.headD [] = "nova-gateway".data || host_parts.headD [] = "nova-gateway-stg".data) then
      .ok (replaceAll "{NOVA_CELL_PLACEHOLDER}".data ((host_parts.drop 1).headD [])
             PULSE_INTERNAL_COLLECTOR_ENDPOINT)
    else
      .error (.valueError "[Pulse] Unable to extract nova cell from HTTP_FORWARDEDHOST.".data)

/- ### util.py: session extraction -/

/-- A `headers` mapping as far as `extract_session_id` observes it: just its
optional `baggage` entry. -/
structure HeadersMap where
  baggage : Option Str
deriving DecidableEq

/-- A `request` object as far as `extract_session_id` observes it: its
`headers` attribute when present (`hasattr(request, "headers")`). -/
structure RequestObj where
  headers : Option HeadersMap
deriving DecidableEq

/-- The keyword arguments observed by the session-extraction helpers.
`none` models an absent key. `body` models both supported body shapes
(dict and attribute-style) by their observable `session_id` field:
`some o` is a present body whose `session_id` lookup yields `o`. -/
structure Kwargs where
  session_id : Option Str := none
  request : Option RequestObj := none
  headers : Option HeadersMap := none
  body : Option (Option Str) := none
deriving DecidableEq

/-- The `headers` local of `extract_session_id`: the request's `headers`
attribute when a request with that attribute is present, else the top-level
`headers` entry (`kwargs.get("headers", {})`; the empty-dict default is a
mapping with no `baggage` entry, indistinguishable from `none` here). -/
def headers_of (kw : Kwargs) : Option HeadersMap :=
  match kw.request with
  | some r =>
    match r.headers with
    | some h => some h
    | none => kw.headers
  | none => kw.headers

/-- The `baggage` local of `extract_session_id`: `headers.get('baggage')`. -/
def baggage_of (kw : Kwargs) : Option Str :=
  match headers_of kw with
  | some h => h.baggage
  | none => none

/-- One iteration of the baggage loop of `extract_session_id`: a segment
yields a session id when it contains `'='`, and its key, stripped, equals
`HEADER_INCOMING_SESSION_ID`; the value is stripped too. -/
def seg_session_id (part : Str) : Option Str :=
  if '=' ∈ part then
    let kv := splitFirst '=' part
    if pyStrip kv.1 = HEADER_INCOMING_SESSION_ID then some (pyStrip kv.2) else none
  else none

/-- The baggage loop of `extract_session_id`:
`parts = [item.strip() for item in baggage.split(',')]`, then the first
segment that `seg_session_id` accepts wins (`break`). -/
def parse_baggage (b : Str) : Option Str :=
  ((pySplit ',' b).map pyStrip).findSome? seg_session_id

/-- Source: `util.py` `extract_session_id`. A truthy `session_id` keyword is
returned immediately; otherwise the baggage of the resolved headers mapping
is parsed; when nothing matches, the (falsy) initial `session_id` value is
returned unchanged. -/
def extract_session_id (kw : Kwargs) : Option Str :=
  let sid := kw.session_id
  if truthyOpt sid then sid
  else
    match baggage_of kw with
    | some b =>
      if truthyStr b then
        match parse_baggage b with
        | some v => some v
        | none => sid
      else sid
    | none => sid

/-- Source: `util.py` `extract_session_id_from_body`: when a truthy `body`
is present, its `session_id` field (dict key or attribute); else `None`. -/
def extract_session_id_from_body (kw : Kwargs) : Option Str :=
  match kw.body with
  | some sid => sid
  | none => none

/-- Source: `util.py` `add_session_id_to_span_attributes`: combine the two
extractors with Python `or`; when the result is falsy, return without
setting any property (result `none`); else the association property
`{SESSION_ID: sid}` is set (result `some sid`). -/
def add_session_id_to_span_attributes (kw : Kwargs) : Option Str :=
  let sid := pyOr (extract_session_id kw) (extract_session_id_from_body kw)
  if truthyOpt sid then sid else none

/-- Definition modelled on the spec's words for claim C4, to be compared
with `extract_session_id`: split the baggage string on `','`, skip segments
with no `'='`, split each remaining segment on the first `'='`, trim both
key and value, and return the trimmed value of the first segment whose
trimmed key equals the incoming-session-id name. -/
def baggage_session_id_spec (b : Str) : Option Str :=
  (pySplit ',' b).findSome? seg_session_id

/- ### main.py: file exporters -/

/-- OpenTelemetry `SpanExportResult` as observed by `main.py`. -/
inductive SpanExportResult where
  | success
  | failure
deriving DecidableEq

/-- OpenTelemetry `LogExportResult` as observed by `main.py`. -/
inductive LogExportResult where
  | success
  | failure
deriving DecidableEq

/-- The file-system behavior an exporter call runs against: whether
`open(..., 'a')` raises, and — when some write to the open handle raises —
the index of the first `write` call that does (`none`: every write
succeeds). An empty batch performs no write and therefore cannot hit a
write failure. -/
structure FileIOEnv where
  openFails : Bool
  writeFailsAt : Option Nat
deriving DecidableEq

/-- The `for r in batch: f.write(...)` loop against `io`: the lines that
reach the file (every line before the first failing write; all of them when
no write fails), and whether a write raised. -/
def writeLines (io : FileIOEnv) (lines : List Str) : List Str × Bool :=
  match io.writeFailsAt with
  | none => (lines, false)
  | some k => if lines.length ≤ k then (lines, false) else (lines.take k, true)

/-- Decimal digit character. -/
def decDigit (n : Nat) : Char := Char.ofNat (48 + n)

/-- Decimal rendering of a natural, as a Python f-string renders an int. -/
def decRepr (n : Nat) : Str :=
  if h : n < 10 then [decDigit n]
  else decRepr (n / 10) ++ [decDigit (n % 10)]
termination_by n
decreasing_by
  exact Nat.div_lt_self (by omega) (by omega)

/-- Lowercase hexadecimal digit character (`0`-`9`, `a`-`f`). -/
def hexDigit (n : Nat) : Char :=
  if n < 10 then Char.ofNat (48 + n) else Char.ofNat (87 + n)

/-- Lowercase hexadecimal rendering of a natural (`format(n, 'x')`). -/
def toHex (n : Nat) : Str :=
  if h : n < 16 then [hexDigit n]
  else toHex (n / 16) ++ [hexDigit (n % 16)]
termination_by n
decreasing_by
  exact Nat.div_lt_self (by omega) (by omega)

/-- Python `format(n, '016x')`: lowercase hex, left-padded with `'0'` to a
minimum width of 16; longer values are not truncated. -/
def format016x (n : Nat) : Str :=
  let s := toHex n
  if s.length < 16 then List.replicate (16 - s.length) '0' ++ s else s

/-- A structured log record as observed by `FileLogExporter.export`
(`log_data.log_record`). The timestamp is in nanoseconds; span and trace
ids are the integers OpenTelemetry stores (64-bit and 128-bit ranges are
not enforced by the exporter). -/
structure LogRecord where
  timestamp : Nat
  severity_text : Str
  body : Str
  span_id : Nat
  trace_id : Nat
deriving DecidableEq

/-- Source: `main.py` `CustomFileSpanExporter.__init__`: stores the file
name; nothing can raise. Spans are modelled by their `to_json()` text. -/
structure CustomFileSpanExporter where
  file_name : Str
deriving DecidableEq

/-- Source: `main.py` `CustomFileSpanExporter.export`: `open(file, 'a')`
and the per-span `f.write` loop have no exception handler — an open failure
or a write failure propagates to the caller (the lines written before a
failing write persist); only when all I/O succeeds is `SUCCESS` returned.
The file is modelled as its list of lines; the result is the file state
plus either the raised exception or the returned status. -/
def CustomFileSpanExporter.export (io : FileIOEnv) (e : CustomFileSpanExporter)
    (file : List Str) (spans : List Str) : List Str × Except PyErr SpanExportResult :=
  if io.openFails then (file, .error .osError)
  else
    let w := writeLines io spans
    if w.2 then (file ++ w.1, .error .osError) else (file ++ w.1, .ok .success)

/-- Source: `main.py` `FileLogExporter.__init__`: stores the file name. -/
structure FileLogExporter where
  file_name : Str
deriving DecidableEq

/-- The formatted-text line `FileLogExporter.export` writes per record:
`Timestamp: {..}, Severity: {..}, Message: {..}, Span ID : {016x}, Trace ID : {016x}`. -/
def formatLine (r : LogRecord) : Str :=
  "Timestamp: ".data ++ decRepr r.timestamp ++
  ", Severity: ".data ++ r.severity_text ++
  ", Message: ".data ++ r.body ++
  ", Span ID : ".data ++ format016x r.span_id ++
  ", Trace ID : ".data ++ format016x r.trace_id

/-- Source: `main.py` `FileLogExporter.export`: `open(file, 'a')` and the
per-record `f.write` loop have no exception handler — an open failure or a
write failure propagates (lines written before a failing write persist);
only when all I/O succeeds is one formatted line per record appended and
`SUCCESS` returned. -/
def FileLogExporter.export (io : FileIOEnv) (e : FileLogExporter)
    (file : List Str) (batch : List LogRecord) : List Str × Except PyErr LogExportResult :=
  if io.openFails then (file, .error .osError)
  else
    let w := writeLines io (batch.map formatLine)
    if w.2 then (file ++ w.1, .error .osError) else (file ++ w.1, .ok .success)

/-- Source: `main.py` `JSONLFileLogExporter.__init__`: tries to open the
file for append; on failure the exception is caught and logged and the
handle is set to `None` — construction itself never raises. -/
structure JSONLFileLogExporter where
  file_path : Str
  f : Option Unit
deriving DecidableEq

/-- The constructor body of `JSONLFileLogExporter` (a total function:
no exception escapes it). -/
def JSONLFileLogExporter.construct (io : FileIOEnv) (path : Str) : JSONLFileLogExporter :=
  { file_path := path, f := if io.openFails then none else some () }

/-- Source: `main.py` `JSONLFileLogExporter.export`: `FAILURE` when the
handle is `None`; otherwise each record's JSON line is written with a flush
after every line, the whole loop wrapped in try/except — a write error
becomes `FAILURE` instead of raising, with the lines flushed before it
persisting; when every write succeeds (in particular for an empty batch)
`SUCCESS` is returned. Records are modelled by their `to_json(None)` text. -/
def JSONLFileLogExporter.export (io : FileIOEnv) (e : JSONLFileLogExporter)
    (file : List Str) (batch : List Str) : List Str × LogExportResult :=
  match e.f with
  | none => (file, .failure)
  | some _ =>
    let w := writeLines io batch
    if w.2 then (file ++ w.1, .failure) else (file ++ w.1, .success)

/- ### main.py: the Pulse facade -/

/-- The constructor flags of `Pulse.__init__`, with their source defaults. -/
structure PulseFlags where
  write_to_file : Bool := false
  write_to_traceloop : Bool := false
  api_key : Option Str := none
  otel_collector_endpoint : Option Str := none
  only_live_logs : Bool := false
  enable_trace_content : Bool := true
  without_traceloop : Bool := false
  telemetry_enabled : Bool := false
  span_attribute_size_limit : Nat := 4 * 1024
deriving DecidableEq

/-- The process-level inputs `Pulse.__init__` reads: the environment, the
two `builtins` flags (`FORCE_CONTENT_TRACING`, `S2_OWNED_APP`), and whether
`get_jsonl_file_exporter` finds a usable live-log file path. -/
structure ProcEnv where
  vars : List (Str × Str) := []
  force_content_tracing : Bool := false
  s2_owned : Bool := false
  live_logs_ok : Bool := false
deriving DecidableEq

/-- The observable initialization side effects of `Pulse.__init__`, in the
order the source performs them. -/
inductive Effect where
  | setContentTracing (enabled : Bool)
  | setSpanAttrSizeLimit (limit : Nat)
  | initLogProvider
  | jsonlLogSetup
  | otlpDirectSetup (endpoint : Str) (toFile : Bool)
  | logProviderSetup
  | otlpLogExporterSetup (endpoint : Str)
  | traceloopInit (api_endpoint : Option Str) (toFile : Bool)
deriving DecidableEq

/-- The instance attributes `Pulse.__init__` assigns on `self`: only
`self.config` (`none` before assignment). -/
structure PulseState where
  config : Option (List (Str × Str))
deriving DecidableEq

/-- The try-block body of `Pulse.__init__` for a first construction: the
branch selected by the flags, its side effects in source order, and — when a
branch raises (`form_otel_collector_endpoint`, `get_internal_collector_endpoint`,
missing project key) — the error together with the effects already
performed before it. -/
def pulse_body (flags : PulseFlags) (env : ProcEnv) :
    Except (PyErr × List Effect) (List (Str × Str) × List Effect) :=
  let config := get_environ_vars env.vars
  if flags.write_to_traceloop && truthyOpt flags.api_key then
    .ok (config, [.initLogProvider, .setContentTracing false, .traceloopInit none false])
  else if flags.write_to_file && !flags.without_traceloop then
    .ok (config,
      [.setContentTracing (flags.enable_trace_content && !flags.telemetry_enabled),
       .initLogProvider, .traceloopInit none true])
  else if flags.only_live_logs then
    .ok (config, if env.live_logs_ok then [.jsonlLogSetup] else [])
  else if flags.without_traceloop && flags.otel_collector_endpoint.isSome then
    .ok (config,
      [.otlpDirectSetup (flags.otel_collector_endpoint.getD []) flags.write_to_file])
  else
    let branch : Except (PyErr × List Effect) (List Effect × Option Str) :=
      if env.force_content_tracing then
        .ok ([.setSpanAttrSizeLimit flags.span_attribute_size_limit],
             flags.otel_collector_endpoint)
      else if flags.telemetry_enabled || env.s2_owned then
        match get_internal_collector_endpoint env.vars with
        | .ok ie => .ok ([.setContentTracing false], some ie)
        | .error e => .error (e, [.setContentTracing false])
      else
        .ok ([], flags.otel_collector_endpoint)
    match branch with
    | .error e => .error e
    | .ok (preEffs, ep0) =>
      let epR : Except PyErr Str :=
        match ep0 with
        | some e => .ok e
        | none =>
          match envLookup config PROJECT with
          | some pid => form_otel_collector_endpoint (some pid)
          | none => .error (.valueError "Project ID not found in configuration.".data)
      match epR with
      | .error e => .error (e, preEffs)
      | .ok ep =>
        .ok (config,
          preEffs ++ [.logProviderSetup] ++
          (if env.live_logs_ok then [.jsonlLogSetup] else []) ++
          [.otlpLogExporterSetup ep, .traceloopInit (some ep) false])

/-- Source: `main.py` `Pulse.__init__` around the try-block. When the
process-wide `_pulse_instance` is set, the existing instance's attributes
are copied onto the new object and the method returns at once (no effects,
no exception). Otherwise the body runs; any exception it raises is caught
and logged; in every case the (possibly partially-initialized) object is
installed as `_pulse_instance`. Result: the new object's state, the updated
global, the effects performed, and whether an exception was caught. -/
def pulse_init (g : Option PulseState) (flags : PulseFlags) (env : ProcEnv) :
    PulseState × Option PulseState × List Effect × Bool :=
  match g with
  | some inst => (inst, some inst, [], false)
  | none =>
    match pulse_body flags env with
    | .ok (cfg, effs) =>
      let st : PulseState := ⟨some cfg⟩
      (st, some st, effs, false)
    | .error (_, effs) =>
      let st : PulseState := ⟨some (get_environ_vars env.vars)⟩
      (st, some st, effs, true)

/- ### Auxiliary definitions used by the theorems -/

/-- Definition modelled on the spec's words for claim C6: the rename-table
target of a variable name, by exact table lookup (the original name when the
table has no entry for it). -/
def renameTargetSpec (k : Str) : Str :=
  match ENV_VARIABLES_MAPPING.find? (fun p => p.1 == k) with
  | some p => p.2
  | none => k

/-- The canonical attribute names `get_environ_vars` produces, in table
order. -/
def CANONICAL_ATTRIBUTE_KEYS : List Str :=
  ["singlestore.organization".data, "singlestore.project".data,
   "singlestore.notebooks.server.id".data, "singlestore.hostname".data,
   "singlestore.workload.type".data, "singlestore.nova.app.base.path".data,
   "singlestore.nova.app.base.url".data, "singlestore.nova.app.type".data,
   "singlestore.nova.app.id".data, "singlestore.nova.app.name".data,
   "singlestore.is.agent".data]

/-- The literal text of `OTEL_COLLECTOR_ENDPOINT` before the placeholder. -/
def EP_PRE : Str := "http://otel-collector-".data

/-- The literal text of `OTEL_COLLECTOR_ENDPOINT` after the placeholder. -/
def EP_SUF : Str := ".observability.svc.cluster.local:4317".data

/-- Lowercase hexadecimal digit test (`0`-`9`, `a`-`f`). -/
def isHexDigitChar (c : Char) : Bool :=
  ('0' ≤ c && c ≤ '9') || ('a' ≤ c && c ≤ 'f')

/-- A log record whose trace id needs 17 hex digits (`2^64 = 16^16`). -/
def sampleLogRecord : LogRecord :=
  { timestamp := 0, severity_text := "INFO".data, body := "m".data,
    span_id := 1, trace_id := 2 ^ 64 }

/- ### String lemmas -/

theorem dropWhile_append_cons {p : Char → Bool} {ch : Char} (a c : Str)
    (h : p ch = false) :
    List.dropWhile p (a ++ ch :: c) = List.dropWhile p a ++ ch :: c := by
  induction a with
  | nil => simp [List.dropWhile_cons, h]
  | cons x a ih =>
    by_cases hx : p x = true
    · simpa [List.dropWhile_cons, hx] using ih
    · simp [List.dropWhile_cons, hx]

theorem stripL_append_cons {ch : Char} (a c : Str) (h : pyIsSpace ch = false) :
    stripL (a ++ ch :: c) = stripL a ++ ch :: c :=
  dropWhile_append_cons a c h

theorem stripR_append_cons {ch : Char} (a c : Str) (h : pyIsSpace ch = false) :
    stripR (a ++ ch :: c) = a ++ ch :: stripR c := by
  unfold stripR
  rw [show (a ++ ch :: c).reverse = c.reverse ++ ch :: a.reverse by
        simp [List.reverse_append]]
  rw [stripL_append_cons _ _ h]
  simp [List.reverse_append]

theorem pyStrip_append_cons {ch : Char} (a c : Str) (h : pyIsSpace ch = false) :
    pyStrip (a ++ ch :: c) = stripL a ++ ch :: stripR c := by
  unfold pyStrip
  rw [stripL_append_cons _ _ h, stripR_append_cons _ _ h]

theorem mem_dropWhile_iff {p : Char → Bool} {ch : Char} (h : p ch = false)
    (s : Str) : ch ∈ List.dropWhile p s ↔ ch ∈ s := by
  induction s with
  | nil => simp
  | cons x xs ih =>
    by_cases hx : p x = true
    · rw [List.dropWhile_cons, if_pos hx, ih, List.mem_cons]
      constructor
      · exact Or.inr
      · rintro (rfl | hm)
        · rw [hx] at h; cases h
        · exact hm
    · rw [List.dropWhile_cons, if_neg (by simpa using hx)]

theorem mem_stripL_iff {ch : Char} (h : pyIsSpace ch = false) (s : Str) :
    ch ∈ stripL s ↔ ch ∈ s := mem_dropWhile_iff h s

theorem mem_stripR_iff {ch : Char} (h : pyIsSpace ch = false) (s : Str) :
    ch ∈ stripR s ↔ ch ∈ s := by
  unfold stripR
  rw [List.mem_reverse, mem_stripL_iff h, List.mem_reverse]

theorem mem_pyStrip_iff {ch : Char} (h : pyIsSpace ch = false) (s : Str) :
    ch ∈ pyStrip s ↔ ch ∈ s := by
  unfold pyStrip
  rw [mem_stripR_iff h, mem_stripL_iff h]

theorem dropWhile_idem (p : Char → Bool) (s : Str) :
    List.dropWhile p (List.dropWhile p s) = List.dropWhile p s := by
  induction s with
  | nil => rfl
  | cons x xs ih =>
    by_cases hx : p x = true
    · rw [List.dropWhile_cons, if_pos hx]; exact ih
    · rw [List.dropWhile_cons, if_neg (by simpa using hx),
          List.dropWhile_cons, if_neg (by simpa using hx)]

theorem stripL_idem (s : Str) : stripL (stripL s) = stripL s :=
  dropWhile_idem pyIsSpace s

theorem stripR_idem (s : Str) : stripR (stripR s) = stripR s := by
  unfold stripR
  rw [List.reverse_reverse, stripL_idem]

theorem stripR_nil : stripR [] = [] := rfl

theorem stripR_cons (x : Char) (xs : Str) :
    stripR (x :: xs) =
      if stripR xs = [] then (if pyIsSpace x then [] else [x])
      else x :: stripR xs := by
  unfold stripR stripL
  rw [show (x :: xs).reverse = xs.reverse ++ [x] by simp]
  by_cases h0 : List.dropWhile pyIsSpace xs.reverse = []
  · by_cases hx : pyIsSpace x = true <;>
      simp [List.dropWhile_append, h0, List.dropWhile_cons, hx]
  · simp [List.dropWhile_append, List.isEmpty_iff, h0]

theorem stripL_stripR_comm (t : Str) : stripL (stripR t) = stripR (stripL t) := by
  induction t with
  | nil => rfl
  | cons x xs ih =>
    by_cases hx : pyIsSpace x = true
    · rw [show stripL (x :: xs) = stripL xs by
            simp [stripL, List.dropWhile_cons, hx]]
      rw [← ih, stripR_cons]
      by_cases h0 : stripR xs = []
      · rw [if_pos h0, if_pos hx, h0]
      · rw [if_neg h0]
        simp [stripL, List.dropWhile_cons, hx]
    · rw [show stripL (x :: xs) = x :: xs by
            simp [stripL, List.dropWhile_cons, hx]]
      rw [stripR_cons]
      by_cases h0 : stripR xs = []
      · rw [if_pos h0, if_neg (by simpa using hx)]
        simp [stripL, List.dropWhile_cons, hx]
      · rw [if_neg h0]
        have : stripL (stripR xs) = stripR (stripL xs) := ih
        simp [stripL, List.dropWhile_cons, hx]

theorem pyStrip_stripL (s : Str) : pyStrip (stripL s) = pyStrip s := by
  unfold pyStrip
  rw [stripL_idem]

theorem pyStrip_stripR (s : Str) : pyStrip (stripR s) = pyStrip s := by
  unfold pyStrip
  rw [stripL_stripR_comm, stripR_idem]

theorem splitFirst_spec {sep : Char} {s : Str} (h : sep ∈ s) :
    ∃ a b, s = a ++ sep :: b ∧ sep ∉ a ∧ splitFirst sep s = (a, b) := by
  induction s with
  | nil => cases h
  | cons x xs ih =>
    by_cases hx : x = sep
    · subst hx
      exact ⟨[], xs, rfl, by simp, by simp [splitFirst]⟩
    · have hxm : sep ∈ xs := by
        rcases List.mem_cons.mp h with h1 | h1
        · exact absurd h1.symm hx
        · exact h1
      obtain ⟨a, b, hs, hna, hsp⟩ := ih hxm
      refine ⟨x :: a, b, by rw [hs]; rfl, ?_, ?_⟩
      · intro hm
        rcases List.mem_cons.mp hm with h1 | h1
        · exact hx h1.symm
        · exact hna h1
      · simp [splitFirst, hx, hsp]

theorem splitFirst_append_cons {sep : Char} (a b : Str) (h : sep ∉ a) :
    splitFirst sep (a ++ sep :: b) = (a, b) := by
  induction a with
  | nil => simp [splitFirst]
  | cons x a ih =>
    have hx : ¬(x = sep) := fun e => h (by rw [e]; exact List.mem_cons_self _ _)
    have ih' := ih (fun hm => h (List.mem_cons_of_mem _ hm))
    simp [splitFirst, hx, ih']

theorem findSome?_map {α β γ : Type} (f : α → β) (g : β → Option γ) (l : List α) :
    (l.map f).findSome? g = l.findSome? (fun x => g (f x)) := by
  induction l with
  | nil => rfl
  | cons x xs ih => simp [List.findSome?_cons, ih]

/- ### Session-extraction lemmas (claim C4) -/

theorem pyIsSpace_eq_false : pyIsSpace '=' = false := rfl

theorem mem_of_mem_stripL {ch : Char} {s : Str} (h : ch ∈ stripL s) : ch ∈ s :=
  (List.dropWhile_sublist pyIsSpace).subset h

/-- The per-segment step of the baggage loop is unchanged by first stripping
the segment: the code strips each segment before splitting, the spec wording
splits first and trims key and value afterwards; both agree. -/
theorem seg_session_id_pyStrip (part : Str) :
    seg_session_id (pyStrip part) = seg_session_id part := by
  by_cases h : '=' ∈ part
  · obtain ⟨a, b, hp, hna, hsp⟩ := splitFirst_spec h
    subst hp
    have hstrip := pyStrip_append_cons a b pyIsSpace_eq_false
    have hmem : '=' ∈ pyStrip (a ++ '=' :: b) := by
      rw [hstrip]
      exact List.mem_append_right _ (List.mem_cons_self _ _)
    have hna' : '=' ∉ stripL a := fun hm => hna (mem_of_mem_stripL hm)
    unfold seg_session_id
    rw [if_pos hmem, if_pos h, hstrip, splitFirst_append_cons _ _ hna',
        splitFirst_append_cons _ _ hna]
    show (if pyStrip (stripL a) = _ then some (pyStrip (stripR b)) else none) = _
    rw [pyStrip_stripL, pyStrip_stripR]
  · have h' : ¬('=' ∈ pyStrip part) := fun hm =>
      h ((mem_pyStrip_iff pyIsSpace_eq_false part).mp hm)
    unfold seg_session_id
    rw [if_neg h', if_neg h]

theorem parse_baggage_eq_spec (b : Str) :
    parse_baggage b = baggage_session_id_spec b := by
  unfold parse_baggage baggage_session_id_spec
  rw [findSome?_map]
  simp only [seg_session_id_pyStrip]

/- ### Claim theorems -/

/-- C4: for every headers mapping whose `baggage` entry is a string,
`extract_session_id` splits the string on `','`, splits each segment on the
first `'='`, trims whitespace from both key and value, silently skips
segments containing no `'='`, and returns the trimmed value of the first
segment whose trimmed key is exactly `singlestore-session-id` — that is, it
agrees with the spec-worded parser `baggage_session_id_spec` on every
baggage string. -/
theorem C4_extract_session_id_parses_baggage_as_spec (b : Str) :
    extract_session_id { headers := some ⟨some b⟩ } = baggage_session_id_spec b := by
  have h1 : extract_session_id { headers := some ⟨some b⟩ } =
      (if truthyStr b = true then
        (match parse_baggage b with | some v => some v | none => none)
       else none) := rfl
  rw [h1]
  by_cases hb : truthyStr b = true
  · rw [if_pos hb, parse_baggage_eq_spec]
    cases baggage_session_id_spec b <;> rfl
  · rw [if_neg hb]
    have hbe : b = [] := by
      unfold truthyStr at hb
      simpa [List.isEmpty_iff] using hb
    subst hbe
    rfl

/-- C3 counterexample: a `call_kwargs` that contains a `session_id` key with
value `""` is not returned verbatim — the code checks truthiness, not
presence, so the empty string falls through to baggage extraction, which
returns `"42"` here. -/
theorem C3_counterexample :
    extract_session_id ⟨some [], none, some ⟨some "singlestore-session-id=42".data⟩, none⟩
      = some "42".data ∧
    some "42".data ≠ (some [] : Option Str) := by
  exact ⟨by decide, by decide⟩

/-- C3 (amended): for every `call_kwargs` whose `session_id` entry is a
non-empty (truthy) string, `extract_session_id` returns that value verbatim,
regardless of any other entries. -/
theorem C3_truthy_session_id_returned_verbatim (kw : Kwargs) (s : Str)
    (hs : kw.session_id = some s) (hne : s ≠ []) :
    extract_session_id kw = some s := by
  unfold extract_session_id
  rw [hs]
  have ht : truthyOpt (some s) = true := by
    unfold truthyOpt truthyStr
    simpa [List.isEmpty_iff] using hne
  rw [if_pos ht]

/-- C3 witness: the amended theorem applied at a concrete input. -/
theorem C3_witness :
    extract_session_id { session_id := some "abc".data } = some "abc".data :=
  C3_truthy_session_id_returned_verbatim _ _ rfl (by decide)

/-- C10: when `call_kwargs` contains a `request` object exposing a `headers`
attribute, `extract_session_id` reads the baggage only from that attribute —
the top-level `headers` entry is irrelevant (first conjunct); the top-level
`headers` entry is consulted exactly when no request with a `headers`
attribute is present (second and third conjuncts). -/
theorem C10_request_headers_shadow_toplevel_headers
    (sid : Option Str) (h : HeadersMap) (hm hm2 : Option HeadersMap)
    (b : Option (Option Str)) :
    (extract_session_id { session_id := sid, request := some ⟨some h⟩, headers := hm, body := b }
      = extract_session_id { session_id := sid, request := none, headers := some h, body := b }) ∧
    (extract_session_id { session_id := sid, request := some ⟨none⟩, headers := hm2, body := b }
      = extract_session_id { session_id := sid, request := none, headers := hm2, body := b }) ∧
    (extract_session_id { session_id := sid, request := none, headers := hm2, body := b }
      = extract_session_id { session_id := sid, request := none, headers := hm2, body := none }) :=
  ⟨rfl, rfl, rfl⟩

/-- C5 counterexample: with no session id available anywhere (no
`session_id` keyword, no headers, no body), the agent decorator's helper
`add_session_id_to_span_attributes` sets no association property at all
(result `none`) — no 16-digit fallback identifier is generated anywhere in
the code. -/
theorem C5_counterexample : add_session_id_to_span_attributes {} = none := rfl

/-- C5 (amended): when neither `extract_session_id` nor
`extract_session_id_from_body` yields a truthy session id, the decorator
omits the session-id correlation property entirely (a debug message is
logged and no association property is set); no fallback identifier is
generated. -/
theorem C5_no_session_id_omits_property (kw : Kwargs)
    (h1 : truthyOpt (extract_session_id kw) = false)
    (h2 : truthyOpt (extract_session_id_from_body kw) = false) :
    add_session_id_to_span_attributes kw = none := by
  simp [add_session_id_to_span_attributes, pyOr, h1, h2]

/-- C5 witness: the amended theorem applied at the empty kwargs. -/
theorem C5_witness : add_session_id_to_span_attributes { session_id := some [] } = none :=
  C5_no_session_id_omits_property _ rfl rfl

/-- C6: for every assignment of the process environment, the resolver
returns a mapping whose keys are exactly the canonicalized rename-table
targets of the fixed variable table (conjunct one plus the closed conjunct
two, which computes the targets by exact table lookup and canonicalization
— lowercase, `'_'` replaced by `'.'`), and whose values are the environment
values with missing variables silently replaced by the table defaults
(conjunct three). -/
theorem C6_resolver_keys_and_values (env : List (Str × Str)) :
    ((get_environ_vars env).map Prod.fst = CANONICAL_ATTRIBUTE_KEYS) ∧
    (CANONICAL_ATTRIBUTE_KEYS
      = DEFAULT_ENV_VARIABLES.map (fun p => convert_key (renameTargetSpec p.1))) ∧
    ((get_environ_vars env).map Prod.snd
      = DEFAULT_ENV_VARIABLES.map (fun p => (envLookup env p.1).getD p.2)) := by
  refine ⟨?_, by decide, ?_⟩
  · unfold get_environ_vars format_env_variables
    rw [List.map_map, List.map_map]
    have hf : ((Prod.fst ∘ fun p : Str × Str => (convert_key (renameKey p.1), p.2)) ∘
          fun p : Str × Str => (p.1, (envLookup env p.1).getD p.2))
        = fun p : Str × Str => convert_key (renameKey p.1) := rfl
    rw [hf]
    decide
  · unfold get_environ_vars format_env_variables
    rw [List.map_map, List.map_map]
    rfl

/- ### replaceAll lemmas (claim C7) -/

theorem replaceAll_nil (pat rep : Str) : replaceAll pat rep [] = [] := by
  rw [replaceAll]

theorem replaceAll_cons_hit {pat : Str} (rep : Str) {c : Char} {cs : Str}
    (hne : pat ≠ []) (hpre : pat.isPrefixOf (c :: cs) = true) :
    replaceAll pat rep (c :: cs) = rep ++ replaceAll pat rep ((c :: cs).drop pat.length) := by
  rw [replaceAll, dif_pos ⟨hne, hpre⟩]

theorem replaceAll_cons_skip {pat : Str} (rep : Str) {c : Char} {cs : Str}
    (h : pat.isPrefixOf (c :: cs) = false) :
    replaceAll pat rep (c :: cs) = c :: replaceAll pat rep cs := by
  rw [replaceAll, dif_neg]
  intro hc
  rw [hc.2] at h
  cases h

theorem replaceAll_id_of_no_match (pat rep s : Str)
    (h : ∀ t ∈ s.tails, pat.isPrefixOf t = false) :
    replaceAll pat rep s = s := by
  induction s with
  | nil => exact replaceAll_nil pat rep
  | cons c cs ih =>
    have h0 : pat.isPrefixOf (c :: cs) = false :=
      h _ ((List.mem_tails _ _).mpr (List.suffix_refl _))
    rw [replaceAll_cons_skip rep h0]
    rw [ih (fun t ht => h t (by
      rw [List.tails_cons]
      exact List.mem_cons_of_mem _ ht))]

theorem replaceAll_single_occurrence (pat rep v : Str) (hne : pat ≠ [])
    (hv : ∀ t ∈ v.tails, pat.isPrefixOf t = false) :
    ∀ u : Str,
      (∀ w ∈ u.tails, w ≠ [] → pat.isPrefixOf (w ++ pat ++ v) = false) →
      replaceAll pat rep (u ++ pat ++ v) = u ++ rep ++ v := by
  intro u
  induction u with
  | nil =>
    intro _
    obtain ⟨p0, prest, rfl⟩ : ∃ p0 prest, pat = p0 :: prest := by
      cases pat with
      | nil => exact absurd rfl hne
      | cons p0 prest => exact ⟨p0, prest, rfl⟩
    have hpre : (p0 :: prest).isPrefixOf ((p0 :: prest) ++ v) = true :=
      List.isPrefixOf_iff_prefix.mpr (List.prefix_append _ _)
    have step := @replaceAll_cons_hit (p0 :: prest) rep p0 (prest ++ v) hne
      (by simpa using hpre)
    simp only [List.nil_append] at *
    rw [show (p0 :: prest) ++ v = p0 :: (prest ++ v) from rfl] at *
    rw [step]
    rw [show (p0 :: (prest ++ v)).drop (p0 :: prest).length = v by
      rw [show p0 :: (prest ++ v) = (p0 :: prest) ++ v from rfl]
      exact List.drop_left _ _]
    rw [replaceAll_id_of_no_match _ rep v hv]
  | cons x u' ih =>
    intro hu
    have h0 : pat.isPrefixOf ((x :: u') ++ pat ++ v) = false :=
      hu (x :: u') ((List.mem_tails _ _).mpr (List.suffix_refl _)) (by simp)
    rw [show (x :: u') ++ pat ++ v = x :: (u' ++ pat ++ v) from rfl] at h0 ⊢
    rw [replaceAll_cons_skip rep h0]
    rw [ih (fun w hw hwne => hu w (by
      rw [List.tails_cons]
      exact List.mem_cons_of_mem _ hw) hwne)]
    rfl

/-- C7: `form_otel_collector_endpoint` raises a `ValueError` exactly on a
`None` or empty project id (conjuncts one and two); the endpoint template
decomposes as literal text, the placeholder, and literal text, with the
placeholder occurring nowhere inside either literal part (conjuncts three
to five); and for every non-empty project id the result is the template
with the placeholder substituted exactly once, all surrounding literal text
preserved (final conjunct). -/
theorem C7_form_endpoint_errors_and_substitution :
    (form_otel_collector_endpoint none
      = .error (.valueError "[Pulse] SINGLESTOREDB_PROJECT is required but not found int env variables.".data)) ∧
    (form_otel_collector_endpoint (some [])
      = .error (.valueError "[Pulse] SINGLESTOREDB_PROJECT is required but not found int env variables.".data)) ∧
    (OTEL_COLLECTOR_ENDPOINT = EP_PRE ++ "{PROJECTID_PLACEHOLDER}".data ++ EP_SUF) ∧
    (∀ t ∈ EP_PRE.tails, ("{PROJECTID_PLACEHOLDER}".data).isPrefixOf t = false) ∧
    (∀ t ∈ EP_SUF.tails, ("{PROJECTID_PLACEHOLDER}".data).isPrefixOf t = false) ∧
    (∀ pid : Str, pid ≠ [] →
      form_otel_collector_endpoint (some pid) = .ok (EP_PRE ++ pid ++ EP_SUF)) := by
  refine ⟨rfl, rfl, by decide, by decide, by decide, ?_⟩
  intro pid hne
  have hstep : form_otel_collector_endpoint (some pid)
      = Except.ok (replaceAll "{PROJECTID_PLACEHOLDER}".data pid OTEL_COLLECTOR_ENDPOINT) := by
    unfold form_otel_collector_endpoint
    simp [hne]
  rw [hstep]
  rw [show OTEL_COLLECTOR_ENDPOINT = EP_PRE ++ "{PROJECTID_PLACEHOLDER}".data ++ EP_SUF
      from by decide]
  rw [replaceAll_single_occurrence _ pid EP_SUF (by decide) (by decide) EP_PRE (by decide)]

/-- C7 witness: the substitution branch applied at the concrete project id
`p123`. -/
theorem C7_witness :
    form_otel_collector_endpoint (some "p123".data)
      = .ok (EP_PRE ++ "p123".data ++ EP_SUF) :=
  C7_form_endpoint_errors_and_substitution.2.2.2.2.2 "p123".data (by decide)

/- ### Hexadecimal formatting lemmas (claim C8) -/

theorem hexDigit_isHex : ∀ m, m < 16 → isHexDigitChar (hexDigit m) = true := by decide

theorem toHex_lt {n : Nat} (h : n < 16) : toHex n = [hexDigit n] := by
  rw [toHex, dif_pos h]

theorem toHex_ge {n : Nat} (h : ¬n < 16) :
    toHex n = toHex (n / 16) ++ [hexDigit (n % 16)] := by
  conv_lhs => rw [toHex]
  rw [dif_neg h]

theorem toHex_length_le : ∀ k, 1 ≤ k → ∀ n, n < 16 ^ k → (toHex n).length ≤ k := by
  intro k
  induction k with
  | zero => omega
  | succ k ih =>
    intro _ n hn
    by_cases h : n < 16
    · rw [toHex_lt h]
      simp
    · rw [toHex_ge h]
      have hk : 1 ≤ k := by
        rcases Nat.eq_zero_or_pos k with h0 | h0
        · subst h0
          simp [pow_succ, pow_zero] at hn
          omega
        · exact h0
      have hdiv : n / 16 < 16 ^ k := by
        rw [Nat.div_lt_iff_lt_mul (by norm_num)]
        calc n < 16 ^ (k + 1) := hn
        _ = 16 ^ k * 16 := by rw [pow_succ]
      have := ih hk (n / 16) hdiv
      simp [List.length_append]
      omega

theorem toHex_length_eq : ∀ k n, 16 ^ k ≤ n → n < 16 ^ (k + 1) → (toHex n).length = k + 1 := by
  intro k
  induction k with
  | zero =>
    intro n h1 h2
    rw [toHex_lt (by simpa using h2)]
    rfl
  | succ k ih =>
    intro n h1 h2
    have hge : ¬n < 16 := by
      have h16 : (16 : ℕ) ^ 1 ≤ 16 ^ (k + 1) :=
        Nat.pow_le_pow_right (by norm_num) (by omega)
      simp only [pow_one] at h16
      omega
    rw [toHex_ge hge]
    have e1 : 16 ^ k ≤ n / 16 := by
      rw [Nat.le_div_iff_mul_le (by norm_num)]
      calc 16 ^ k * 16 = 16 ^ (k + 1) := by rw [pow_succ]
      _ ≤ n := h1
    have e2 : n / 16 < 16 ^ (k + 1) := by
      rw [Nat.div_lt_iff_lt_mul (by norm_num)]
      calc n < 16 ^ (k + 2) := h2
      _ = 16 ^ (k + 1) * 16 := by rw [pow_succ]
    have := ih (n / 16) e1 e2
    simp [List.length_append, this]

theorem toHex_all_hex (n : Nat) : ∀ c ∈ toHex n, isHexDigitChar c = true := by
  induction n using Nat.strong_induction_on with
  | _ n ih =>
    by_cases h : n < 16
    · rw [toHex_lt h]
      intro c hc
      simp only [List.mem_singleton] at hc
      subst hc
      exact hexDigit_isHex n h
    · rw [toHex_ge h]
      intro c hc
      rcases List.mem_append.mp hc with hl | hr
      · exact ih (n / 16) (Nat.div_lt_self (by omega) (by omega)) c hl
      · simp only [List.mem_singleton] at hr
        subst hr
        exact hexDigit_isHex _ (Nat.mod_lt _ (by omega))

theorem format016x_length_ge (n : Nat) : 16 ≤ (format016x n).length := by
  unfold format016x
  by_cases h : (toHex n).length < 16
  · simp [h]
    omega
  · simp [h]
    omega

theorem format016x_length_eq {n : Nat} (h : n < 2 ^ 64) :
    (format016x n).length = 16 := by
  have h16 : n < 16 ^ 16 := by
    calc n < 2 ^ 64 := h
    _ = 16 ^ 16 := by norm_num
  have hle : (toHex n).length ≤ 16 := toHex_length_le 16 (by omega) n h16
  unfold format016x
  by_cases hlt : (toHex n).length < 16
  · simp [hlt]
    omega
  · simp [hlt]
    omega

theorem format016x_all_hex (n : Nat) : ∀ c ∈ format016x n, isHexDigitChar c = true := by
  unfold format016x
  by_cases h : (toHex n).length < 16
  · simp only [h, if_pos]
    intro c hc
    rcases List.mem_append.mp hc with hl | hr
    · rw [List.eq_of_mem_replicate hl]
      rfl
    · exact toHex_all_hex n c hr
  · simp only [h, if_neg, if_false]
    exact toHex_all_hex n

theorem toHex_2pow64_length : (toHex (2 ^ 64)).length = 17 := by
  have h := toHex_length_eq 16 (2 ^ 64) (by norm_num) (by norm_num)
  simpa using h

/-- C8 counterexample: a log record whose trace id is `2^64` produces a
Trace ID field of 17 hexadecimal digits, not 16 — `format(n, '016x')` pads
to a minimum of 16 digits but does not truncate, and OpenTelemetry trace
ids are 128-bit. The export call appends exactly this formatted line. -/
theorem C8_counterexample :
    (format016x sampleLogRecord.trace_id).length = 17 ∧
    FileLogExporter.export ⟨false, none⟩ ⟨LOCAL_LOGS_FILE⟩ [] [sampleLogRecord]
      = ([formatLine sampleLogRecord], .ok .success) := by
  constructor
  · show (format016x (2 ^ 64)).length = 17
    have h17 := toHex_2pow64_length
    unfold format016x
    have hge : ¬(toHex (2 ^ 64)).length < 16 := by omega
    simp only [hge, if_neg, if_false]
    exact h17
  · rfl

/-- C8 (amended): when the file can be opened and every write succeeds, the
text log sink appends one line per record in the fixed `Timestamp,
Severity, Message, Span ID, Trace ID` template and reports success (an
open or write failure instead raises, see C2); in every such line the Span
ID and Trace ID fields consist solely of lowercase hexadecimal digits, are
at least 16 digits long, and are exactly 16 digits long precisely when the
respective id is below `2^64` (span ids are 64-bit, so their field is 16
digits; 128-bit trace ids format to 32 digits). -/
theorem C8_log_line_format (io : FileIOEnv) (fl : FileLogExporter)
    (file : List Str) (batch : List LogRecord)
    (hopen : io.openFails = false) (hwrite : io.writeFailsAt = none) :
    FileLogExporter.export io fl file batch = (file ++ batch.map formatLine, .ok .success) ∧
    ∀ r : LogRecord,
      (16 ≤ (format016x r.span_id).length ∧
        (∀ c ∈ format016x r.span_id, isHexDigitChar c = true) ∧
        (r.span_id < 2 ^ 64 → (format016x r.span_id).length = 16)) ∧
      (16 ≤ (format016x r.trace_id).length ∧
        (∀ c ∈ format016x r.trace_id, isHexDigitChar c = true) ∧
        (r.trace_id < 2 ^ 64 → (format016x r.trace_id).length = 16)) := by
  constructor
  · unfold FileLogExporter.export writeLines
    rw [hopen, hwrite]
    rfl
  · intro r
    exact ⟨⟨format016x_length_ge _, format016x_all_hex _, fun h => format016x_length_eq h⟩,
           ⟨format016x_length_ge _, format016x_all_hex _, fun h => format016x_length_eq h⟩⟩

/-- C8 witness: the amended theorem applied to a concrete record with a
64-bit span id, showing its Span ID field is exactly 16 hex digits. -/
theorem C8_witness :
    FileLogExporter.export ⟨false, none⟩ ⟨LOCAL_LOGS_FILE⟩ [] [sampleLogRecord]
      = ([] ++ [sampleLogRecord].map formatLine, .ok .success) ∧
    (format016x sampleLogRecord.span_id).length = 16 :=
  ⟨(C8_log_line_format ⟨false, none⟩ ⟨LOCAL_LOGS_FILE⟩ [] [sampleLogRecord] rfl rfl).1,
   ((C8_log_line_format ⟨false, none⟩ ⟨LOCAL_LOGS_FILE⟩ [] [sampleLogRecord] rfl rfl).2
      sampleLogRecord).1.2.2 (by norm_num [sampleLogRecord])⟩

/-- C2 counterexample: export calls on the span file exporter propagate
exceptions to the caller — the `export` body has no exception handler
around `open(self.file_name, "a")` or the `f.write` loop, so no failure
status is returned when the open fails (first conjunct) or when the first
write fails (second conjunct). -/
theorem C2_counterexample :
    CustomFileSpanExporter.export ⟨true, none⟩ ⟨LOCAL_TRACES_FILE⟩ [] []
      = ([], .error .osError) ∧
    CustomFileSpanExporter.export ⟨false, some 0⟩ ⟨LOCAL_TRACES_FILE⟩ [] ["s".data]
      = ([], .error .osError) := ⟨rfl, rfl⟩

/-- C2 (amended): constructing any of the three file exporters never throws
(the span and text-log exporters only store a path, and the JSONL exporter
catches open failures and marks itself unusable — conjunct one); the JSONL
exporter's export never raises: a missing handle yields `FAILURE` with
nothing written, when every write succeeds (in particular on an empty
batch) it yields `SUCCESS` with all lines appended, and a failing write
yields `FAILURE` with the lines flushed before it persisting (conjuncts
two to four); but the span and text-log exporters' `export` raise: on a
failed open the exception propagates with nothing written, on a failing
write it propagates with the prefix written before it persisting, and a
success status comes only when all I/O succeeds (conjuncts five to
seven). -/
theorem C2_exporter_error_discipline (io : FileIOEnv) (path : Str)
    (e : JSONLFileLogExporter) (file : List Str) (spans : List Str)
    (batch : List LogRecord) (jb : List Str)
    (se : CustomFileSpanExporter) (fe : FileLogExporter) :
    ((JSONLFileLogExporter.construct io path).file_path = path ∧
      ((JSONLFileLogExporter.construct io path).f = none ↔ io.openFails = true)) ∧
    (e.f = none → JSONLFileLogExporter.export io e file jb = (file, .failure)) ∧
    (e.f ≠ none → io.writeFailsAt = none →
      JSONLFileLogExporter.export io e file jb = (file ++ jb, .success)) ∧
    (∀ k, e.f ≠ none → io.writeFailsAt = some k →
      JSONLFileLogExporter.export io e file jb =
        (if jb.length ≤ k then (file ++ jb, .success)
         else (file ++ jb.take k, .failure))) ∧
    (io.openFails = false → io.writeFailsAt = none →
      CustomFileSpanExporter.export io se file spans = (file ++ spans, .ok .success) ∧
      FileLogExporter.export io fe file batch
        = (file ++ batch.map formatLine, .ok .success)) ∧
    (io.openFails = true →
      CustomFileSpanExporter.export io se file spans = (file, .error .osError) ∧
      FileLogExporter.export io fe file batch = (file, .error .osError)) ∧
    (∀ k, io.openFails = false → io.writeFailsAt = some k →
      (spans.length > k →
        CustomFileSpanExporter.export io se file spans
          = (file ++ spans.take k, .error .osError)) ∧
      (batch.length > k →
        FileLogExporter.export io fe file batch
          = (file ++ (batch.map formatLine).take k, .error .osError))) := by
  refine ⟨⟨rfl, ?_⟩, ?_, ?_, ?_, ?_, ?_, ?_⟩
  · unfold JSONLFileLogExporter.construct
    cases io.openFails <;> simp
  · intro hf
    unfold JSONLFileLogExporter.export
    rw [hf]
  · intro hf hw
    unfold JSONLFileLogExporter.export writeLines
    cases hfe : e.f with
    | none => exact absurd hfe hf
    | some u =>
      rw [hw]
      rfl
  · intro k hf hw
    unfold JSONLFileLogExporter.export writeLines
    cases hfe : e.f with
    | none => exact absurd hfe hf
    | some u =>
      rw [hw]
      by_cases hk : jb.length ≤ k <;> simp [hk]
  · intro ho hw
    unfold CustomFileSpanExporter.export FileLogExporter.export writeLines
    rw [ho, hw]
    exact ⟨rfl, rfl⟩
  · intro ho
    unfold CustomFileSpanExporter.export FileLogExporter.export
    rw [ho]
    exact ⟨rfl, rfl⟩
  · intro k ho hw
    constructor
    · intro hlen
      unfold CustomFileSpanExporter.export writeLines
      rw [ho, hw]
      simp only [if_neg (by omega : ¬spans.length ≤ k)]
      rfl
    · intro hlen
      unfold FileLogExporter.export writeLines
      rw [ho, hw]
      have : ¬(batch.map formatLine).length ≤ k := by
        rw [List.length_map]
        omega
      simp only [if_neg this]
      rfl

/-- C2 witness: the amended theorem applied at concrete inputs — a failed
open makes JSONL construction fail soft (handle `None`), a failing write
inside a JSONL batch yields `FAILURE` with the flushed prefix kept, an
empty JSONL batch succeeds even when writes would fail, and a fully
successful open and write makes the span exporter return `SUCCESS` with
the record appended. -/
theorem C2_witness :
    ((JSONLFileLogExporter.construct ⟨true, none⟩ LOCAL_TRACES_FILE).f = none) ∧
    (JSONLFileLogExporter.export ⟨false, some 1⟩ ⟨LOCAL_TRACES_FILE, some ()⟩ []
      ["a".data, "b".data] = (["a".data], .failure)) ∧
    (JSONLFileLogExporter.export ⟨false, some 0⟩ ⟨LOCAL_TRACES_FILE, some ()⟩ [] []
      = ([], .success)) ∧
    CustomFileSpanExporter.export ⟨false, none⟩ ⟨LOCAL_TRACES_FILE⟩ [] ["s".data]
      = (["s".data], .ok .success) :=
  ⟨((C2_exporter_error_discipline ⟨true, none⟩ LOCAL_TRACES_FILE
      ⟨LOCAL_TRACES_FILE, none⟩ [] [] [] [] ⟨LOCAL_TRACES_FILE⟩ ⟨LOCAL_LOGS_FILE⟩).1.2.mpr rfl),
   (by
      have h := (C2_exporter_error_discipline ⟨false, some 1⟩ LOCAL_TRACES_FILE
        ⟨LOCAL_TRACES_FILE, some ()⟩ [] [] [] ["a".data, "b".data]
        ⟨LOCAL_TRACES_FILE⟩ ⟨LOCAL_LOGS_FILE⟩).2.2.2.1 1 (by simp) rfl
      simpa using h),
   (by
      have h := (C2_exporter_error_discipline ⟨false, some 0⟩ LOCAL_TRACES_FILE
        ⟨LOCAL_TRACES_FILE, some ()⟩ [] [] [] ([] : List Str)
        ⟨LOCAL_TRACES_FILE⟩ ⟨LOCAL_LOGS_FILE⟩).2.2.2.1 0 (by simp) rfl
      simpa using h),
   ((C2_exporter_error_discipline ⟨false, none⟩ LOCAL_TRACES_FILE
      ⟨LOCAL_TRACES_FILE, none⟩ [] ["s".data] [] [] ⟨LOCAL_TRACES_FILE⟩ ⟨LOCAL_LOGS_FILE⟩).2.2.2.2.1 rfl rfl).1⟩

/-- C1: once a Pulse instance exists in the process, every later
construction call — with any combination of flags and any environment —
copies the existing instance's fields onto the new object
(`self.__dict__.update`), performs no initialization side effects, leaves
the process-wide instance unchanged, and raises nothing, so the second
object's state equals the first instance's state. -/
theorem C1_singleton_idempotent_reentry (inst : PulseState) (flags : PulseFlags)
    (env : ProcEnv) :
    pulse_init (some inst) flags env = (inst, some inst, [], false) := rfl

/-- C9: when the body of the first Pulse construction raises, the exception
is caught and the partially-initialized object (its `config` attribute was
assigned before any raising step) is nevertheless installed as the
process-wide singleton; every subsequent construction, with any flags and
environment, copies that failed instance's state and performs no
initialization — the failed state is never retried or replaced. -/
theorem C9_failed_init_installed_as_singleton (flags : PulseFlags) (env : ProcEnv)
    (e : PyErr) (effs : List Effect)
    (herr : pulse_body flags env = .error (e, effs)) :
    (pulse_init none flags env =
      (⟨some (get_environ_vars env.vars)⟩, some ⟨some (get_environ_vars env.vars)⟩, effs, true)) ∧
    (∀ (flags2 : PulseFlags) (env2 : ProcEnv),
      pulse_init (some ⟨some (get_environ_vars env.vars)⟩) flags2 env2 =
        (⟨some (get_environ_vars env.vars)⟩, some ⟨some (get_environ_vars env.vars)⟩, [], false)) := by
  constructor
  · unfold pulse_init
    rw [herr]
  · intro flags2 env2
    rfl

/-- C9 witness: the default flags with an empty environment select the
default branch, whose endpoint derivation raises a `ValueError` because the
project id resolves to the empty string; the theorem applied there shows the
failed instance is installed and reused. -/
theorem C9_witness :
    (pulse_body {} {} = .error
      (.valueError "[Pulse] SINGLESTOREDB_PROJECT is required but not found int env variables.".data, [])) ∧
    (pulse_init none {} {} =
      (⟨some (get_environ_vars [])⟩, some ⟨some (get_environ_vars [])⟩, [], true)) ∧
    (pulse_init (some ⟨some (get_environ_vars [])⟩) { write_to_file := true } { s2_owned := true } =
      (⟨some (get_environ_vars [])⟩, some ⟨some (get_environ_vars [])⟩, [], false)) :=
  ⟨rfl,
   (C9_failed_init_installed_as_singleton {} {} _ _ rfl).1,
   (C9_failed_init_installed_as_singleton {} {} _ _ rfl).2 { write_to_file := true } { s2_owned := true }⟩
